import Mathlib

/-
  Verification of the earworms scheduling/sending pipeline
  (src/send_earworms/send_earworm.py).

  The Python source is shallowly embedded below.  External collaborators
  (SQLite catalog, Genius client, bitly shortener, Twilio client, the
  `schedule` timer library, the clock) are modelled as explicit parameters;
  randomness is modelled by an explicit seed argument.  Times are seconds:
  a UTC instant is seconds since an arbitrary epoch, a time-of-day is
  seconds since local midnight.
-/

namespace Earworms

/-! ## Python `datetime.time` comparison model

`is_available` builds `datetime.time` bounds carrying a pytz `US/Eastern`
tzinfo and compares them (chained `<=`) against the naive time-of-day of
the converted Eastern datetime.  CPython compares two `time` values by
wall clock when both `utcoffset()` results agree (in particular when both
are `None`), adjusts by the offsets when both are timedeltas, and raises
`TypeError` when exactly one is `None`.  `time.utcoffset()` calls
`tzinfo.utcoffset(None)`, and pytz's `DstTzInfo.utcoffset` returns `None`
when its argument is `None`.  We embed exactly that. -/

/-- Model of a Python `tzinfo` object as used by `datetime.time.utcoffset`:
only the value of `tzinfo.utcoffset(None)` matters (in seconds). -/
structure PyTzInfo where
  utcoffsetNone : Option Int
deriving DecidableEq, Repr

/-- pytz `timezone('US/Eastern')`: `DstTzInfo.utcoffset(None)` returns `None`
(pytz cannot resolve DST without a date). -/
def pytzEastern : PyTzInfo := ⟨none⟩

/-- Model of a Python `datetime.time` value: time-of-day in seconds since
midnight (microseconds are zero everywhere in this program) plus an optional
tzinfo. -/
structure PyTime where
  seconds : Nat
  tzinfo : Option PyTzInfo
deriving DecidableEq, Repr

/-- `datetime.time.utcoffset()`: `None` for a naive time, otherwise
`tzinfo.utcoffset(None)`. -/
def PyTime.utcoffset (t : PyTime) : Option Int :=
  match t.tzinfo with
  | none => none
  | some tz => tz.utcoffsetNone

/-- CPython `time.__le__` via `time._cmp`: wall-clock comparison when the two
`utcoffset()` values agree (both `None` included), offset-adjusted comparison
when both are timedeltas, `TypeError` when exactly one is `None`. -/
def py_time_le (a b : PyTime) : Except String Bool :=
  match a.utcoffset, b.utcoffset with
  | none, none => .ok (decide (a.seconds ≤ b.seconds))
  | some x, some y =>
      if x = y then .ok (decide (a.seconds ≤ b.seconds))
      else .ok (decide ((a.seconds : Int) - x ≤ (b.seconds : Int) - y))
  | _, _ => .error "cannot compare naive and aware times"

/-! ## `get_edt_time` and `is_available` -/

/-- `get_edt_time`: localizes `datetime.utcnow()` to UTC and converts it to
`US/Eastern`.  `utcSeconds` is the UTC instant; `off` is the US Eastern UTC
offset at that instant as resolved by the tz database (−5 h in winter, −4 h
in DST).  The result is the Eastern local datetime, as seconds on the local
timeline. -/
def get_edt_time (utcSeconds : Nat) (off : Int) : Int :=
  (utcSeconds : Int) + off

/-- `datetime.time()` on a (local) datetime: its time-of-day in seconds. -/
def datetime_time (dtSeconds : Int) : Nat :=
  (dtSeconds % 86400).toNat

/-- `is_available`: builds `time(9,0,0)` and `time(23,0,0)` with
`tzinfo=timezone('US/Eastern')` and evaluates the chained comparison
`start <= get_edt_time().time() <= end` under the Python `time` comparison
semantics (short-circuiting, possibly raising `TypeError`). -/
def is_available (utcSeconds : Nat) (off : Int) : Except String Bool :=
  let start : PyTime := ⟨9 * 3600, some pytzEastern⟩
  let stop : PyTime := ⟨23 * 3600, some pytzEastern⟩
  let current : PyTime := ⟨datetime_time (get_edt_time utcSeconds off), none⟩
  match py_time_le start current with
  | .error msg => .error msg
  | .ok b => if b then py_time_le current stop else .ok false

/-! ## Failure taxonomy and run outcomes

The Python code signals collaborator failures by exceptions
(sqlite3 errors / `TypeError` on an empty fetch, `AttributeError` when the
Genius search returns `None`, shortener provider errors, Twilio rejection).
The spec names them `SourceUnavailable`, `ReferenceNotFound`,
`ShorteningFailed`, `DeliveryFailed`; we use those names for the
corresponding exception sites. -/

inductive Err
  | sourceUnavailable
  | referenceNotFound
  | shorteningFailed
  | deliveryFailed
deriving DecidableEq, Repr

/-- Delivery status fetched from Twilio after the settle delay. -/
structure SmsStatus where
  status : String
  error_code : Option Int
  error_message : Option String
deriving DecidableEq, Repr

/-- RunOutcome of one job run, per the spec's sum type. -/
inductive RunOutcome
  | Skipped (reason : String)
  | Sent (status : String)
  | Failed (error : Err)
deriving DecidableEq, Repr

/-- Pipeline steps that call an external collaborator, in source order. -/
inductive Step
  | songPick
  | resolve
  | shorten
  | send
deriving DecidableEq, Repr

/-! ## Collaborator models -/

/-- One row of the `earworms` table. -/
structure EarwormRow where
  artist : String
  title : String
  earworm : String
deriving DecidableEq, Repr

/-- The SQLite catalog: whether it can be queried at all, and its rows. -/
structure Database where
  queryable : Bool
  rows : List EarwormRow
deriving DecidableEq, Repr

/-- `ORDER BY RANDOM() LIMIT 1` followed by `fetchone()`: some row of the
table chosen by the random seed, or `None` when the table is empty. -/
def fetchone_random (seed : Nat) (rows : List EarwormRow) : Option EarwormRow :=
  rows.get? (seed % rows.length)

/-- `get_earworm`: connects to the SQLite database (raising when it cannot be
queried), fetches one random row, and unpacks it into
`(artist, title, earworm)` — the unpacking raises `TypeError` when
`fetchone()` returned `None`, i.e. when the catalog is empty. -/
def get_earworm (db : Database) (seed : Nat) : Except Err (String × String × String) :=
  if db.queryable then
    match fetchone_random seed db.rows with
    | none => .error .sourceUnavailable
    | some row => .ok (row.artist, row.title, row.earworm)
  else .error .sourceUnavailable

/-- The Genius client: `search_song` yields the matched song's url, or `None`
when no match exists. -/
structure Genius where
  search_song : String → String → Option String

/-- `get_genius_link`: `genius.search_song(artist, title).url` — taking `.url`
of a `None` result raises. -/
def get_genius_link (genius : Genius) (artist title : String) : Except Err String :=
  match genius.search_song artist title with
  | none => .error .referenceNotFound
  | some url => .ok url

/-- The bitly shortener behind pyshorteners: `short` yields the short url or
raises a provider error. -/
structure BitlyShortener where
  short : String → Option String

/-- `shorten_link`: builds the shortener from the access token and shortens
the long url. -/
def shorten_link (shortener : BitlyShortener) (long_url : String) : Except Err String :=
  match shortener.short long_url with
  | none => .error .shorteningFailed
  | some short_url => .ok short_url

/-- `build_message`: pads the lyrics with the emoji marker above and below and
appends the url on its own line (the four-part f-string of the source). -/
def build_message (lyrics url : String) (emoji : String := "🎶🎵🎶") : String :=
  emoji ++ "\n" ++ lyrics ++ "\n" ++ emoji ++ "\n" ++ url

/-- The Twilio client: `create` submits a message body to a recipient and
yields a message sid when the provider accepts it (`None` models the
provider rejecting the send, i.e. `create` raising); `fetch` returns the
delivery status of an accepted message after the 2-second settle delay. -/
structure TwilioClient where
  create : String → String → Option String
  fetch : String → SmsStatus

/-- The log line `send_sms` emits about the fetched status, with Python
truthiness on `error_code` / `error_message` (0 and the empty string are
falsy). -/
def status_log_line (sms : SmsStatus) : String :=
  "Status: " ++ sms.status ++
  (match sms.error_code with
   | none => ""
   | some c => if c = 0 then "" else " Error code: " ++ toString c) ++
  (match sms.error_message with
   | none => ""
   | some m => if m = "" then "" else " Error message: " ++ m)

/-- `send_sms`: submits the message; if the provider rejects it the exception
propagates, otherwise the fetched status is logged — whatever it says — and
the function returns normally.  The result carries the fetched status and the
emitted log line. -/
def send_sms (client : TwilioClient) (message recipient : String) :
    Except Err (SmsStatus × String) :=
  match client.create message recipient with
  | none => .error .deliveryFailed
  | some sid =>
      let sms := client.fetch sid
      .ok (sms, status_log_line sms)

/-! ## The job runner `send_earworm` -/

/-- The collaborator handles `send_earworm` receives (the spec's
`JobContext`). -/
structure JobContext where
  db : Database
  genius : Genius
  shortener : BitlyShortener
  twilio : TwilioClient
  recipient : String

/-- `send_earworm`: gated on `is_available()`; when open runs
pick → resolve → shorten → compose → send in order, each exception aborting
the rest of the body.  The returned trace records, in order, which
collaborator calls were made; the outer `Except String` carries a
`TypeError` escaping from `is_available` (shown impossible below). -/
def send_earworm (utcSeconds : Nat) (off : Int) (seed : Nat) (ctx : JobContext) :
    Except String (RunOutcome × List Step) :=
  match is_available utcSeconds off with
  | .error msg => .error msg
  | .ok false => .ok (.Skipped "outside availability window", [])
  | .ok true =>
      match get_earworm ctx.db seed with
      | .error e => .ok (.Failed e, [.songPick])
      | .ok (artist, title, lyrics) =>
          match get_genius_link ctx.genius artist title with
          | .error e => .ok (.Failed e, [.songPick, .resolve])
          | .ok original_url =>
              match shorten_link ctx.shortener original_url with
              | .error e => .ok (.Failed e, [.songPick, .resolve, .shorten])
              | .ok short_url =>
                  let message := build_message lyrics short_url
                  match send_sms ctx.twilio message ctx.recipient with
                  | .error e =>
                      .ok (.Failed e, [.songPick, .resolve, .shorten, .send])
                  | .ok (sms, _) =>
                      .ok (.Sent sms.status, [.songPick, .resolve, .shorten, .send])

/-! ## The scheduler (`run_schedule`, `schedule_job`, `restart_job`)

The source delegates timing to the `schedule` library:
`schedule.every(lower).to(upper).minutes.do(f)` registers one job whose next
run is drawn by `random.randint(lower, upper)` minutes away, redrawn after
each completed run; `schedule.run_pending()` runs due jobs and lets their
exceptions propagate without rescheduling them; `schedule.clear()` empties
the registry.  We embed the registry as a list of jobs, `randint` as an
explicit uniform draw from a seed, and one iteration of the `while True`
polling loop as a step function fed by what `run_pending` observed. -/

/-- One registration in the `schedule` registry: the bounds it was created
with and the currently drawn interval (minutes until its next run). -/
structure SchedJob where
  lowerBound : Nat
  upperBound : Nat
  interval : Nat
deriving DecidableEq, Repr

/-- `random.randint(a, b)`: a uniform draw from the inclusive range
`[a, b]`, the seed selecting which value. -/
def randint (a b seed : Nat) : Nat :=
  a + seed % (b - a + 1)

/-- `schedule_job`: `schedule.every(lower).to(upper).minutes.do(...)` —
appends exactly one job to the registry, with its first interval drawn at
registration time. -/
def schedule_job (lower upper seed : Nat) (registry : List SchedJob) : List SchedJob :=
  registry ++ [{ lowerBound := lower, upperBound := upper, interval := randint lower upper seed }]

/-- `restart_job`: `schedule.clear()` (the registry is emptied) followed by
`schedule_job` (one fresh registration with a freshly drawn interval). -/
def restart_job (lower upper seed : Nat) (registry : List SchedJob) : List SchedJob :=
  let cleared : List SchedJob := []
  schedule_job lower upper seed cleared

/-- What one `schedule.run_pending()` call inside the polling loop observed:
no job was due yet, or the due job ran and either returned or raised. -/
inductive TickEvent
  | notDue
  | ran (result : Except Err Unit)

/-- One iteration of the `while True` loop in `run_schedule`:
`run_pending` either leaves the registry alone (nothing due), completes the
due jobs — the library then redraws each completed job's interval — or
raises, in which case the handler calls `restart_job` and logs the error.
Returns the new registry and the logged error, if any.  The function is
total: no fault leaves the loop. -/
def run_schedule_step (lower upper : Nat) (ev : TickEvent) (seed : Nat)
    (registry : List SchedJob) : List SchedJob × Option Err :=
  match ev with
  | .notDue => (registry, none)
  | .ran (.ok _) =>
      (registry.map (fun j => { j with interval := randint j.lowerBound j.upperBound seed }),
       none)
  | .ran (.error e) => (restart_job lower upper seed registry, some e)

/-- The registry right after `run_schedule` performs its initial
`schedule_job` call (the registry starts empty). -/
def run_schedule_init (lower upper seed : Nat) : List SchedJob :=
  schedule_job lower upper seed []

/-- The registry after the `while True` loop of `run_schedule` has processed
a sequence of tick events (each with the seed its draws consume). -/
def run_schedule_loop (lower upper : Nat) (events : List (TickEvent × Nat))
    (registry : List SchedJob) : List SchedJob :=
  match events with
  | [] => registry
  | (ev, seed) :: rest =>
      run_schedule_loop lower upper rest (run_schedule_step lower upper ev seed registry).1

/-! ## Concrete collaborator instances used as evaluation inputs -/

/-- The end-to-end scenario row of the spec. -/
def exampleRow : EarwormRow :=
  { artist := "Artist A", title := "Title B", earworm := "la la la" }

/-- A context where every collaborator succeeds and delivery is reported
clean. -/
def exampleCtx : JobContext :=
  { db := { queryable := true, rows := [exampleRow] }
  , genius := ⟨fun _ _ => some "http://genius.example/a-b"⟩
  , shortener := ⟨fun _ => some "http://short.ly/xyz"⟩
  , twilio := ⟨fun _ _ => some "SM1", fun _ => { status := "delivered", error_code := none, error_message := none }⟩
  , recipient := "+15550100" }

/-- A context where the Genius search finds no match (the resolve step
raises). -/
def failingResolveCtx : JobContext :=
  { db := { queryable := true, rows := [exampleRow] }
  , genius := ⟨fun _ _ => none⟩
  , shortener := ⟨fun _ => some "http://short.ly/xyz"⟩
  , twilio := ⟨fun _ _ => some "SM1", fun _ => { status := "delivered", error_code := none, error_message := none }⟩
  , recipient := "+15550100" }

/-- A context where the provider accepts the submission but the status
fetched after the settle delay carries an error code. -/
def errorStatusCtx : JobContext :=
  { db := { queryable := true, rows := [exampleRow] }
  , genius := ⟨fun _ _ => some "http://genius.example/a-b"⟩
  , shortener := ⟨fun _ => some "http://short.ly/xyz"⟩
  , twilio := ⟨fun _ _ => some "SM2",
               fun _ => { status := "undelivered", error_code := some 30007, error_message := some "carrier filtered" }⟩
  , recipient := "+15550100" }

/-! ## Helper lemmas -/

lemma is_available_eq (utcSeconds : Nat) (off : Int) :
    is_available utcSeconds off =
      .ok (decide (9 * 3600 ≤ datetime_time (get_edt_time utcSeconds off) ∧
                   datetime_time (get_edt_time utcSeconds off) ≤ 23 * 3600)) := by
  unfold is_available py_time_le PyTime.utcoffset pytzEastern
  by_cases h : 9 * 3600 ≤ datetime_time (get_edt_time utcSeconds off) <;>
    by_cases h2 : datetime_time (get_edt_time utcSeconds off) ≤ 23 * 3600 <;>
    simp [h, h2]

lemma randint_lower_le (a b seed : Nat) : a ≤ randint a b seed :=
  Nat.le_add_right a _

lemma randint_le_upper (a b seed : Nat) (h : a ≤ b) : randint a b seed ≤ b := by
  have hmod : seed % (b - a + 1) < b - a + 1 := Nat.mod_lt _ (Nat.succ_pos _)
  unfold randint
  omega

/-- The registry invariant the scheduler maintains: every registration was
created with the configured bounds and its drawn interval lies between
them. -/
def RegistryWF (lower upper : Nat) (registry : List SchedJob) : Prop :=
  ∀ j ∈ registry, j.lowerBound = lower ∧ j.upperBound = upper ∧
    lower ≤ j.interval ∧ j.interval ≤ upper

lemma schedule_job_wf (lower upper seed : Nat) (registry : List SchedJob)
    (h : lower ≤ upper) (hwf : RegistryWF lower upper registry) :
    RegistryWF lower upper (schedule_job lower upper seed registry) := by
  intro j hj
  rcases List.mem_append.mp hj with hj | hj
  · exact hwf j hj
  · rcases List.mem_singleton.mp hj with rfl
    exact ⟨rfl, rfl, randint_lower_le _ _ _, randint_le_upper _ _ _ h⟩

lemma run_schedule_step_wf (lower upper : Nat) (ev : TickEvent) (seed : Nat)
    (registry : List SchedJob) (h : lower ≤ upper)
    (hwf : RegistryWF lower upper registry) :
    RegistryWF lower upper (run_schedule_step lower upper ev seed registry).1 := by
  cases ev with
  | notDue => exact hwf
  | ran r =>
    cases r with
    | ok _ =>
      intro j hj
      simp only [run_schedule_step, List.mem_map] at hj
      obtain ⟨j0, hj0, rfl⟩ := hj
      obtain ⟨hl, hu, _, _⟩ := hwf j0 hj0
      refine ⟨hl, hu, ?_, ?_⟩
      · rw [hl]; exact randint_lower_le _ _ _
      · rw [hu, hl]; exact randint_le_upper _ _ _ h
    | error e =>
      exact schedule_job_wf lower upper seed [] h (by intro j hj; cases hj)

lemma run_schedule_loop_wf (lower upper : Nat) (h : lower ≤ upper)
    (events : List (TickEvent × Nat)) (registry : List SchedJob)
    (hwf : RegistryWF lower upper registry) :
    RegistryWF lower upper (run_schedule_loop lower upper events registry) := by
  induction events generalizing registry with
  | nil => exact hwf
  | cons ev rest ih =>
    exact ih _ (run_schedule_step_wf lower upper ev.1 ev.2 registry h hwf)

lemma run_schedule_step_length (lower upper : Nat) (ev : TickEvent) (seed : Nat)
    (registry : List SchedJob) (h : registry.length = 1) :
    (run_schedule_step lower upper ev seed registry).1.length = 1 := by
  cases ev with
  | notDue => exact h
  | ran r =>
    cases r with
    | ok _ => simpa [run_schedule_step] using h
    | error e => simp [run_schedule_step, restart_job, schedule_job]

lemma run_schedule_loop_length (lower upper : Nat) (events : List (TickEvent × Nat))
    (registry : List SchedJob) (h : registry.length = 1) :
    (run_schedule_loop lower upper events registry).length = 1 := by
  induction events generalizing registry with
  | nil => exact h
  | cons ev rest ih =>
    exact ih _ (run_schedule_step_length lower upper ev.1 ev.2 registry h)

/-! ## Claim theorems -/

/-- C1: for every current UTC instant and every US Eastern offset the tz
database resolves for it, `is_available` converts the instant to Eastern
local time and returns true exactly when that wall-clock time-of-day lies in
the inclusive range [09:00:00, 23:00:00]; in particular it returns `.ok true`
at local 09:00:00 and 23:00:00 and `.ok false` at 08:59:59 and 23:00:01 (the
four boundary instants below are UTC instants under the EDT offset of
−4 hours; the host timezone never enters `get_edt_time`, which starts from
the UTC clock). -/
theorem is_available_window_characterization :
    (∀ (utcSeconds : Nat) (off : Int),
      is_available utcSeconds off =
        .ok (decide (9 * 3600 ≤ datetime_time (get_edt_time utcSeconds off) ∧
                     datetime_time (get_edt_time utcSeconds off) ≤ 23 * 3600))) ∧
    is_available 46800 (-14400) = .ok true ∧
    is_available 97200 (-14400) = .ok true ∧
    is_available 46799 (-14400) = .ok false ∧
    is_available 97201 (-14400) = .ok false :=
  ⟨is_available_eq, rfl, rfl, rfl, rfl⟩

/-- C9: the availability check is total: for every UTC instant and every
Eastern offset, `is_available` returns a boolean and never raises — the
comparison of the tz-annotated bound times against the naive time-of-day of
the converted Eastern datetime is well-defined because pytz returns no
offset for a bare time, so CPython falls back to wall-clock comparison
instead of raising `TypeError`. -/
theorem is_available_total (utcSeconds : Nat) (off : Int) :
    ∃ b : Bool, is_available utcSeconds off = .ok b :=
  ⟨_, is_available_eq utcSeconds off⟩

/-- C5: `build_message` is a pure total function whose result is exactly
marker, snippet, marker, short url separated by single newlines; on
("Hello", "http://x.co/a") with the default marker it returns exactly the
expected string, and an empty snippet still yields the same four-part
shape. -/
theorem build_message_shape :
    (∀ lyrics url emoji, build_message lyrics url emoji =
        emoji ++ "\n" ++ lyrics ++ "\n" ++ emoji ++ "\n" ++ url) ∧
    build_message "Hello" "http://x.co/a" = "🎶🎵🎶\nHello\n🎶🎵🎶\nhttp://x.co/a" ∧
    (∀ url, build_message "" url = "🎶🎵🎶\n\n🎶🎵🎶\n" ++ url) :=
  ⟨fun _ _ _ => rfl, rfl, fun _ => rfl⟩

/-- C4: whenever the job runner fires while the availability gate is closed,
the run is Skipped and the call trace is empty — no song fetch, reference
lookup, shortening or send happens. -/
theorem send_earworm_skips_when_closed (utcSeconds : Nat) (off : Int)
    (seed : Nat) (ctx : JobContext)
    (hclosed : is_available utcSeconds off = .ok false) :
    send_earworm utcSeconds off seed ctx =
      .ok (.Skipped "outside availability window", []) := by
  unfold send_earworm
  rw [hclosed]

/-- C4 witness: at UTC 18000 under the EST offset (local midnight) the gate
is closed and the run is Skipped with no collaborator call. -/
theorem send_earworm_skips_when_closed_witness :
    is_available 18000 (-18000) = .ok false ∧
    send_earworm 18000 (-18000) 0 exampleCtx =
      .ok (.Skipped "outside availability window", []) :=
  ⟨rfl, send_earworm_skips_when_closed 18000 (-18000) 0 exampleCtx rfl⟩

/-- C8: the song-pick step fails with SourceUnavailable exactly when the
catalog cannot be queried or is empty, and otherwise returns one catalog
record as its (artist, title, snippet) triple. -/
theorem get_earworm_source_unavailable (db : Database) (seed : Nat) :
    (db.queryable = false → get_earworm db seed = .error .sourceUnavailable) ∧
    (db.rows = [] → get_earworm db seed = .error .sourceUnavailable) ∧
    (db.queryable = true → db.rows ≠ [] →
      ∃ row ∈ db.rows, get_earworm db seed = .ok (row.artist, row.title, row.earworm)) := by
  refine ⟨fun h => ?_, fun h => ?_, fun hq hne => ?_⟩
  · simp [get_earworm, h]
  · simp [get_earworm, fetchone_random, h]
  · have hlen : 0 < db.rows.length := List.length_pos.mpr hne
    have hlt : seed % db.rows.length < db.rows.length := Nat.mod_lt _ hlen
    refine ⟨db.rows.get ⟨seed % db.rows.length, hlt⟩, List.get_mem _ _ _, ?_⟩
    simp [get_earworm, hq, fetchone_random, List.getElem?_eq_getElem hlt]

/-- C8 witness: an empty catalog and an unqueryable catalog both fail with
SourceUnavailable. -/
theorem get_earworm_source_unavailable_witness :
    get_earworm { queryable := true, rows := [] } 0 = .error .sourceUnavailable ∧
    get_earworm { queryable := false, rows := [exampleRow] } 0 = .error .sourceUnavailable :=
  ⟨(get_earworm_source_unavailable _ 0).2.1 rfl,
   (get_earworm_source_unavailable _ 0).1 rfl⟩

/-- C2: in an open-gate run, whichever collaborator call fails first — song
pick, reference resolve, link shorten, or the initial send submission — the
run yields Failed carrying that error, the trace stops at the failing step
(no subsequent collaborator is called), and no step appears twice (the
failed step is not retried within the run). -/
theorem send_earworm_fail_fast (utcSeconds : Nat) (off : Int) (seed : Nat)
    (ctx : JobContext) (hopen : is_available utcSeconds off = .ok true) :
    (∀ e, get_earworm ctx.db seed = .error e →
      send_earworm utcSeconds off seed ctx = .ok (.Failed e, [.songPick])) ∧
    (∀ e artist title lyrics,
      get_earworm ctx.db seed = .ok (artist, title, lyrics) →
      get_genius_link ctx.genius artist title = .error e →
      send_earworm utcSeconds off seed ctx = .ok (.Failed e, [.songPick, .resolve])) ∧
    (∀ e artist title lyrics original_url,
      get_earworm ctx.db seed = .ok (artist, title, lyrics) →
      get_genius_link ctx.genius artist title = .ok original_url →
      shorten_link ctx.shortener original_url = .error e →
      send_earworm utcSeconds off seed ctx =
        .ok (.Failed e, [.songPick, .resolve, .shorten])) ∧
    (∀ e artist title lyrics original_url short_url,
      get_earworm ctx.db seed = .ok (artist, title, lyrics) →
      get_genius_link ctx.genius artist title = .ok original_url →
      shorten_link ctx.shortener original_url = .ok short_url →
      send_sms ctx.twilio (build_message lyrics short_url) ctx.recipient = .error e →
      send_earworm utcSeconds off seed ctx =
        .ok (.Failed e, [.songPick, .resolve, .shorten, .send])) := by
  refine ⟨fun e h1 => ?_, fun e a t l h1 h2 => ?_,
          fun e a t l u h1 h2 h3 => ?_, fun e a t l u s h1 h2 h3 h4 => ?_⟩
  · unfold send_earworm
    rw [hopen]
    simp only [h1]
  · unfold send_earworm
    rw [hopen]
    simp only [h1, h2]
  · unfold send_earworm
    rw [hopen]
    simp only [h1, h2, h3]
  · unfold send_earworm
    rw [hopen]
    simp only [h1, h2, h3, h4]

/-- C2 witness: with the gate open and a Genius search that finds nothing,
the run fails with ReferenceNotFound after exactly the pick and resolve
calls — no shorten and no send. -/
theorem send_earworm_fail_fast_witness :
    is_available 46800 (-14400) = .ok true ∧
    get_genius_link failingResolveCtx.genius "Artist A" "Title B" =
      .error .referenceNotFound ∧
    send_earworm 46800 (-14400) 0 failingResolveCtx =
      .ok (.Failed .referenceNotFound, [.songPick, .resolve]) :=
  ⟨rfl, rfl,
   (send_earworm_fail_fast 46800 (-14400) 0 failingResolveCtx (by rfl)).2.1
     .referenceNotFound "Artist A" "Title B" "la la la" (by rfl) (by rfl)⟩

/-- C6: when the provider accepts the submission, a fetched status carrying
an error code is logged (the status log line is produced) but the run still
counts as Sent with that status — the error status never converts the run
into a failure. -/
theorem send_sms_error_status_still_sent (utcSeconds : Nat) (off : Int)
    (seed : Nat) (ctx : JobContext) (artist title lyrics original_url short_url sid : String)
    (code : Int)
    (hopen : is_available utcSeconds off = .ok true)
    (h1 : get_earworm ctx.db seed = .ok (artist, title, lyrics))
    (h2 : get_genius_link ctx.genius artist title = .ok original_url)
    (h3 : shorten_link ctx.shortener original_url = .ok short_url)
    (hsub : ctx.twilio.create (build_message lyrics short_url) ctx.recipient = some sid)
    (herr : (ctx.twilio.fetch sid).error_code = some code) :
    send_sms ctx.twilio (build_message lyrics short_url) ctx.recipient =
      .ok (ctx.twilio.fetch sid, status_log_line (ctx.twilio.fetch sid)) ∧
    send_earworm utcSeconds off seed ctx =
      .ok (.Sent (ctx.twilio.fetch sid).status,
           [.songPick, .resolve, .shorten, .send]) := by
  have hsms : send_sms ctx.twilio (build_message lyrics short_url) ctx.recipient =
      .ok (ctx.twilio.fetch sid, status_log_line (ctx.twilio.fetch sid)) := by
    unfold send_sms
    rw [hsub]
  refine ⟨hsms, ?_⟩
  unfold send_earworm
  rw [hopen]
  simp only [h1, h2, h3, hsms]

/-- C6 witness: a context whose fetched status is "undelivered" with error
code 30007 still yields a Sent("undelivered") run after an accepted
submission, with the error logged. -/
theorem send_sms_error_status_still_sent_witness :
    errorStatusCtx.twilio.create (build_message "la la la" "http://short.ly/xyz")
      errorStatusCtx.recipient = some "SM2" ∧
    (errorStatusCtx.twilio.fetch "SM2").error_code = some 30007 ∧
    send_earworm 46800 (-14400) 0 errorStatusCtx =
      .ok (.Sent "undelivered", [.songPick, .resolve, .shorten, .send]) ∧
    status_log_line (errorStatusCtx.twilio.fetch "SM2") =
      "Status: undelivered Error code: 30007 Error message: carrier filtered" :=
  ⟨rfl, rfl,
   (send_sms_error_status_still_sent 46800 (-14400) 0 errorStatusCtx
      "Artist A" "Title B" "la la la" "http://genius.example/a-b"
      "http://short.ly/xyz" "SM2" 30007 (by rfl) (by rfl) (by rfl) (by rfl)
      (by rfl) (by rfl)).2,
   rfl⟩

/-- C3: when the run raises, the loop body discards the entire registry and
rebuilds it from scratch — the resulting registry is exactly the one the
startup path `run_schedule_init` would build with the fresh seed, a single
registration whose interval is freshly drawn, independent of whatever was
registered before — the error is logged, and the step is a total function,
so the fault never leaves the control loop; no run is re-invoked within the
step. -/
theorem run_schedule_step_failure_restarts (lower upper seed : Nat)
    (registry : List SchedJob) (e : Err) :
    run_schedule_step lower upper (.ran (.error e)) seed registry =
      (run_schedule_init lower upper seed, some e) ∧
    run_schedule_init lower upper seed =
      [{ lowerBound := lower, upperBound := upper, interval := randint lower upper seed }] :=
  ⟨rfl, rfl⟩

/-- C7: with lowerBoundMinutes ≤ upperBoundMinutes, every interval held by a
registration reachable from startup — the initial draw, the redraw after
each completed run, and the fresh draw after each failure restart — lies in
the inclusive range [lowerBoundMinutes, upperBoundMinutes]. -/
theorem scheduler_intervals_within_bounds (lower upper : Nat)
    (hle : lower ≤ upper) (seed0 : Nat) (events : List (TickEvent × Nat)) :
    ∀ j ∈ run_schedule_loop lower upper events (run_schedule_init lower upper seed0),
      lower ≤ j.interval ∧ j.interval ≤ upper := by
  intro j hj
  have hwf := run_schedule_loop_wf lower upper hle events
    (run_schedule_init lower upper seed0)
    (schedule_job_wf lower upper seed0 [] hle (by intro j hj; cases hj))
  exact ⟨(hwf j hj).2.2.1, (hwf j hj).2.2.2⟩

/-- C7 witness: with bounds [90, 300], after one successful tick the single
registration carries interval 97, within bounds. -/
theorem scheduler_intervals_within_bounds_witness :
    SchedJob.mk 90 300 97 ∈
      run_schedule_loop 90 300 [(TickEvent.ran (Except.ok ()), 7)]
        (run_schedule_init 90 300 3) ∧
    90 ≤ 97 ∧ 97 ≤ 300 :=
  ⟨List.mem_singleton.mpr rfl,
   scheduler_intervals_within_bounds 90 300 (by decide) 3
     [(TickEvent.ran (Except.ok ()), 7)] (SchedJob.mk 90 300 97)
     (List.mem_singleton.mpr rfl)⟩

/-- C10: the registry holds exactly one registration at every reachable
state after startup: the initial `schedule_job` adds exactly one, a normal
tick adds none, and the failure path clears everything before adding
exactly one — registrations never accumulate across failures. -/
theorem scheduler_single_registration (lower upper seed0 : Nat)
    (events : List (TickEvent × Nat)) :
    (run_schedule_init lower upper seed0).length = 1 ∧
    (run_schedule_loop lower upper events
      (run_schedule_init lower upper seed0)).length = 1 :=
  ⟨rfl, run_schedule_loop_length lower upper events _ rfl⟩

end Earworms
